import Mathlib

/-!
Verification development for the Malta-Business-Indexer frontend.

Shallow embedding of the client-side logic named by the specification:
the JavaScript primitive values flowing through the hooks, the
query-parameter construction of useBusinesses.fetchBusinesses, the
state transitions of the useStores / useBusinesses / useGeolocation
hooks, the render-state selection of BusinessList / StoreList, the
App.handleLocationSearch handler, and the Haversine distance functions
(googleMaps.js, mockGoogleMaps.js, StoreList.js) over the reals.
JavaScript numbers are modelled as rationals where only field plumbing
and comparisons occur, and as reals where transcendental math occurs;
NaN is a separate constructor of the value type.
-/

/-- Model of the JavaScript primitive values that flow through the
frontend's filter/parameter plumbing: null, undefined, strings,
finite numbers (as rationals), NaN, and booleans. -/
inductive JSPrim : Type
  | null : JSPrim
  | undef : JSPrim
  | str : String → JSPrim
  | num : ℚ → JSPrim
  | nan : JSPrim
  | bool : Bool → JSPrim
deriving DecidableEq

/-- JavaScript falsiness: null, undefined, NaN, false, 0 and the empty
string are falsy; everything else is truthy. -/
def jsFalsy : JSPrim → Bool
  | .null => true
  | .undef => true
  | .nan => true
  | .bool b => !b
  | .num q => decide (q = 0)
  | .str s => decide (s = "")

/-- Decimal digits of a natural number, least significant first
(empty for 0; helper for rendering numbers to strings). -/
def natDigitsRev (n : ℕ) : List ℕ :=
  if h : n = 0 then [] else n % 10 :: natDigitsRev (n / 10)
decreasing_by exact Nat.div_lt_self (Nat.pos_of_ne_zero h) (by norm_num)

/-- Characters of the decimal rendering of a natural number. -/
def natToChars (n : ℕ) : List Char :=
  if n = 0 then [Char.ofNat 48] else (natDigitsRev n).reverse.map Nat.digitChar

/-- Decimal rendering of a natural number. -/
def natToString (n : ℕ) : String := String.mk (natToChars n)

/-- Characters of the rendering of a rational number.  JavaScript's
exact decimal formatting of non-integers is abstracted to a
numerator/denominator form; the development only relies on the
rendering being non-empty. -/
def numToChars (q : ℚ) : List Char :=
  (if q.num < 0 then [Char.ofNat 45] else []) ++ natToChars q.num.natAbs ++
    (if q.den = 1 then [] else Char.ofNat 47 :: natToChars q.den)

/-- String rendering of a JavaScript number (model). -/
def numToString (q : ℚ) : String := String.mk (numToChars q)

/-- JavaScript ToString on primitive values, as used by
value.toString() / URLSearchParams.append in the hooks. -/
def jsToString : JSPrim → String
  | .null => "null"
  | .undef => "undefined"
  | .nan => "NaN"
  | .bool true => "true"
  | .bool false => "false"
  | .num q => numToString q
  | .str s => s

/-- Numeric value of a decimal digit character, none for non-digits. -/
def digitVal (c : Char) : Option ℕ :=
  if c.isDigit then some (c.toNat - 48) else none

/-- Split a character list into its longest leading run of decimal
digits (as digit values) and the remainder. -/
def takeDigits : List Char → List ℕ × List Char
  | [] => ([], [])
  | c :: cs =>
    match digitVal c with
    | some d => ((d :: (takeDigits cs).1), (takeDigits cs).2)
    | none => ([], c :: cs)

/-- Natural number denoted by a list of decimal digit values. -/
def digitsToNat (ds : List ℕ) : ℕ := ds.foldl (fun acc d => acc * 10 + d) 0

/-- Parse an unsigned decimal literal prefix (digits with an optional
fractional part); none when no digit is present.  Exponent suffixes,
which never occur in this frontend's inputs, are elided. -/
def parseUnsigned (cs : List Char) : Option (ℚ × List Char) :=
  match takeDigits cs with
  | (ipart, rest) =>
    match rest with
    | '.' :: rest2 =>
      match takeDigits rest2 with
      | (fpart, rest3) =>
        if ipart = [] ∧ fpart = [] then none
        else some ((digitsToNat ipart : ℚ) + (digitsToNat fpart : ℚ) / 10 ^ fpart.length, rest3)
    | _ => if ipart = [] then none else some ((digitsToNat ipart : ℚ), rest)

/-- Model of JavaScript parseFloat on a string: optional sign followed
by a decimal literal prefix; trailing garbage is ignored; none models
NaN. -/
def parseFloatStr (s : String) : Option ℚ :=
  match s.data with
  | '-' :: cs => (parseUnsigned cs).map (fun p => -p.1)
  | '+' :: cs => (parseUnsigned cs).map (fun p => p.1)
  | cs => (parseUnsigned cs).map (fun p => p.1)

/-- Model of JavaScript parseFloat applied to a primitive value (the
argument is coerced to a string first, so null/undefined/booleans give
NaN); none models NaN. -/
def parseFloatJS : JSPrim → Option ℚ
  | .num q => some q
  | .str s => parseFloatStr s
  | _ => none

/-- Model of JavaScript parseInt on a string (radix 10): optional sign
followed by a decimal integer prefix; none models NaN. -/
def parseIntStr (s : String) : Option ℤ :=
  match s.data with
  | '-' :: cs =>
    (match takeDigits cs with
     | ([], _) => none
     | (ds, _) => some (-(digitsToNat ds : ℤ)))
  | '+' :: cs =>
    (match takeDigits cs with
     | ([], _) => none
     | (ds, _) => some (digitsToNat ds : ℤ))
  | cs =>
    (match takeDigits cs with
     | ([], _) => none
     | (ds, _) => some (digitsToNat ds : ℤ))


/-- One step of the URLSearchParams construction loop in
useBusinesses.fetchBusinesses (lines 43-53): latitude/longitude are
appended only when parseFloat succeeds; any other key is appended
unless its value is null, undefined or the empty string. -/
def appendParam (qp : List (String × String)) (k : String) (v : JSPrim) :
    List (String × String) :=
  if k = "latitude" ∨ k = "longitude" then
    match parseFloatJS v with
    | some n => qp ++ [(k, numToString n)]
    | none => qp
  else if v ≠ JSPrim.null ∧ v ≠ JSPrim.undef ∧ v ≠ JSPrim.str "" then
    qp ++ [(k, jsToString v)]
  else qp

/-- The full queryParams object built by useBusinesses.fetchBusinesses
from Object.entries(params). -/
def buildQueryParams (params : List (String × JSPrim)) : List (String × String) :=
  params.foldl (fun qp kv => appendParam qp kv.1 kv.2) []

/-- Per-entry characterisation of appendParam: the encoded pair, or
none when the entry is omitted from the outgoing request. -/
def encodeParam (kv : String × JSPrim) : Option (String × String) :=
  if kv.1 = "latitude" ∨ kv.1 = "longitude" then
    (parseFloatJS kv.2).map (fun n => (kv.1, numToString n))
  else if kv.2 ≠ JSPrim.null ∧ kv.2 ≠ JSPrim.undef ∧ kv.2 ≠ JSPrim.str "" then
    some (kv.1, jsToString kv.2)
  else none

/-- The filter state held by the SearchFilters component. -/
structure SFilters where
  query : String
  category : String
  min_rating : String
  max_price_level : String
  radius : String
  exclude_closed : Bool
deriving DecidableEq

/-- The searchParams object built by SearchFilters (lines 87-99):
falsy query/category/min_rating/max_price_level become undefined,
radius is parseInt(radius)/1000, and entries whose value is undefined
are then deleted before the object is handed to onSearch. -/
def buildSearchParams (f : SFilters) : List (String × JSPrim) :=
  ([("query", if f.query = "" then JSPrim.undef else JSPrim.str f.query),
    ("category", if f.category = "" then JSPrim.undef else JSPrim.str f.category),
    ("min_rating", if f.min_rating = "" then JSPrim.undef else
      (match parseFloatStr f.min_rating with
       | some q => JSPrim.num q
       | none => JSPrim.nan)),
    ("max_price_level", if f.max_price_level = "" then JSPrim.undef else
      (match parseIntStr f.max_price_level with
       | some i => JSPrim.num (i : ℚ)
       | none => JSPrim.nan)),
    ("radius",
      match parseIntStr f.radius with
      | some i => JSPrim.num ((i : ℚ) / 1000)
      | none => JSPrim.nan)] :
    List (String × JSPrim)).filter (fun kv => kv.2 ≠ JSPrim.undef)

/-- A business/store record as displayed by the frontend (spec section 3);
only the fields the verified logic inspects are carried. -/
structure BizRecord where
  id : String
  name : String
  latitude : ℚ
  longitude : ℚ
deriving DecidableEq

/-- A category summary entry (key, display name, icon, count). -/
structure CategorySummary where
  key : String
  name : String
  icon : String
  count : ℕ
deriving DecidableEq

/-- State owned by the useStores hook. -/
structure StoresState where
  stores : List BizRecord
  loading : Bool
  error : Option String
  total : ℕ
  hasMore : Bool
deriving DecidableEq

/-- A paginated response from the stores API:
stores page, total count and has_more flag. -/
structure StoresPage where
  stores : List BizRecord
  total : ℕ
  has_more : Bool
deriving DecidableEq

namespace UseStores

/-- State updates performed before a useStores request is issued
(setLoading(true); setError(null) at lines 12-13, 28-29, 44-45). -/
def beginFetch (s : StoresState) : StoresState :=
  { s with loading := true, error := none }

/-- Completion of fetchStores (useStores.js lines 14-24): on success
store the page fields; on failure set error to the failure's message
(falling back to a fixed string when the error has no message) and
reset stores to []; finally clear loading.  The failure payload is the
thrown error's optional message. -/
def fetchStoresComplete (s : StoresState) :
    Except (Option String) StoresPage → StoresState
  | .ok r =>
    { s with stores := r.stores, total := r.total, hasMore := r.has_more,
             loading := false }
  | .error m =>
    { s with error := some (m.getD "Failed to fetch stores"), stores := [],
             loading := false }

/-- The fetchStores operation: begin, then complete with the request's
outcome. -/
def fetchStores (s : StoresState) (r : Except (Option String) StoresPage) :
    StoresState :=
  fetchStoresComplete (beginFetch s) r

/-- Completion of searchStores (useStores.js lines 30-40); identical to
fetchStores except for the fallback message. -/
def searchStoresComplete (s : StoresState) :
    Except (Option String) StoresPage → StoresState
  | .ok r =>
    { s with stores := r.stores, total := r.total, hasMore := r.has_more,
             loading := false }
  | .error m =>
    { s with error := some (m.getD "Failed to search stores"), stores := [],
             loading := false }

/-- The searchStores operation. -/
def searchStores (s : StoresState) (r : Except (Option String) StoresPage) :
    StoresState :=
  searchStoresComplete (beginFetch s) r

/-- Completion of getNearbyStores (useStores.js lines 46-56): the nearby
endpoint returns a flat list; total becomes its length and hasMore
false; on failure set error and reset stores to []. -/
def getNearbyStoresComplete (s : StoresState) :
    Except (Option String) (List BizRecord) → StoresState
  | .ok result =>
    { s with stores := result, total := result.length, hasMore := false,
             loading := false }
  | .error m =>
    { s with error := some (m.getD "Failed to fetch nearby stores"), stores := [],
             loading := false }

/-- The getNearbyStores operation. -/
def getNearbyStores (s : StoresState)
    (r : Except (Option String) (List BizRecord)) : StoresState :=
  getNearbyStoresComplete (beginFetch s) r

end UseStores

/-- State owned by the useBusinesses hook. -/
structure BusinessesState where
  businesses : List BizRecord
  categories : List CategorySummary
  loading : Bool
  error : Option String
  total : ℕ
  hasMore : Bool
deriving DecidableEq

/-- A parsed response body from GET /api/businesses; each field may be
absent from the JSON (the hook applies || fallbacks). -/
structure BusinessesResponse where
  businesses : Option (List BizRecord)
  total : Option ℕ
  has_more : Option Bool
deriving DecidableEq

/-- Object field lookup on a params object modelled as an entry list
(absent key gives undefined, i.e. none). -/
def getField (params : List (String × JSPrim)) (k : String) : Option JSPrim :=
  (params.find? (fun p => p.1 = k)).map (fun p => p.2)

/-- Truthiness of a possibly-absent field (absent is falsy). -/
def jsFalsyOpt : Option JSPrim → Bool
  | none => true
  | some v => jsFalsy v

namespace UseBusinesses

/-- State updates performed before a fetchBusinesses request is issued
(setLoading(true); setError(null), useBusinesses.js lines 38-39). -/
def beginFetch (s : BusinessesState) : BusinessesState :=
  { s with loading := true, error := none }

/-- Completion of fetchBusinesses (useBusinesses.js lines 61-82): on
success replace the businesses list when params.offset === 0 or
params.offset is falsy, otherwise append the page to the previous
list; set total and hasMore with || fallbacks.  On failure only the
error message is stored (the businesses list is not touched).  Either
way loading is cleared by the finally block. -/
def fetchBusinessesComplete (s : BusinessesState)
    (params : List (String × JSPrim)) :
    Except String BusinessesResponse → BusinessesState
  | .ok data =>
    { s with
      businesses :=
        if getField params "offset" = some (JSPrim.num 0) ∨
            jsFalsyOpt (getField params "offset") = true then
          data.businesses.getD []
        else
          s.businesses ++ data.businesses.getD [],
      total := data.total.getD 0,
      hasMore := data.has_more.getD false,
      loading := false }
  | .error m =>
    { s with error := some m, loading := false }

/-- The fetchBusinesses operation: begin, then complete with the
request's outcome. -/
def fetchBusinesses (s : BusinessesState) (params : List (String × JSPrim))
    (r : Except String BusinessesResponse) : BusinessesState :=
  fetchBusinessesComplete (beginFetch s) params r

/-- JavaScript object spread { ...base, ...override }: keys of base in
order with overridden values, then the new keys of override. -/
def spreadMerge (base override : List (String × JSPrim)) :
    List (String × JSPrim) :=
  base.map (fun kv =>
    match override.find? (fun p => p.1 = kv.1) with
    | some p => (kv.1, p.2)
    | none => kv) ++
  override.filter (fun p => (base.find? (fun q => q.1 = p.1)).isNone)

/-- The searchBusinesses operation (useBusinesses.js lines 86-94):
delegates to fetchBusinesses with offset 0 and limit 50 defaults
spread under the caller's params. -/
def searchBusinesses (s : BusinessesState) (searchParams : List (String × JSPrim))
    (r : Except String BusinessesResponse) : BusinessesState :=
  fetchBusinesses s
    (spreadMerge [("offset", JSPrim.num 0), ("limit", JSPrim.num 50)] searchParams) r

/-- The getNearbyBusinesses operation (useBusinesses.js lines 97-111):
delegates to fetchBusinesses with latitude/longitude/radius/limit and
offset 0, adding category only when truthy. -/
def getNearbyBusinesses (s : BusinessesState) (lat lng radius : JSPrim)
    (category : JSPrim) (r : Except String BusinessesResponse) :
    BusinessesState :=
  fetchBusinesses s
    ([("latitude", lat), ("longitude", lng), ("radius", radius),
      ("limit", JSPrim.num 100), ("offset", JSPrim.num 0)] ++
     (if jsFalsy category then [] else [("category", category)])) r

end UseBusinesses

/-- The four possible top-level renders of a list view: the loading
placeholder, the error state, the explicit no-results state, and the
normal content list. -/
inductive RenderView : Type
  | loadingView : RenderView
  | errorView : RenderView
  | emptyView : RenderView
  | contentView : RenderView
deriving DecidableEq

namespace BusinessList

/-- Render-state selection of BusinessList (BusinessList.js lines
261-295): loading placeholder when loading with no businesses yet,
else the error state when error is set, else the no-results state when
the list is empty, else the content list. -/
def render (loading : Bool) (error : Option String)
    (businesses : List BizRecord) : RenderView :=
  if loading && businesses.isEmpty then .loadingView
  else if error.isSome then .errorView
  else if !loading && businesses.isEmpty then .emptyView
  else .contentView

end BusinessList

namespace StoreList

/-- Render-state selection of StoreList (StoreList.js lines 124-154):
the error state takes priority; otherwise loading placeholder when
loading with no stores yet, else the no-results state when the list is
empty, else the content list. -/
def render (loading : Bool) (error : Option String)
    (stores : List BizRecord) : RenderView :=
  if error.isSome then .errorView
  else if loading && stores.isEmpty then .loadingView
  else if stores.isEmpty then .emptyView
  else .contentView

end StoreList

/-- The platform geolocation failure kinds distinguished by the
GeolocationPositionError codes. -/
inductive GeoErrorCode : Type
  | permissionDenied : GeoErrorCode
  | positionUnavailable : GeoErrorCode
  | timeoutExpired : GeoErrorCode
  | unknownError : GeoErrorCode
deriving DecidableEq

/-- A geographic position as produced by the geolocation API. -/
structure GeoLocation where
  lat : ℚ
  lng : ℚ
  accuracy : ℚ
deriving DecidableEq

namespace UseGeolocation

/-- The error message surfaced for each platform failure kind by
useGeolocation.getCurrentLocation (src/unnamed/part_001 lines 26-41). -/
def errorMessage : GeoErrorCode → String
  | .permissionDenied => "Location access denied by user"
  | .positionUnavailable => "Location information unavailable"
  | .timeoutExpired => "Location request timed out"
  | .unknownError => "Unknown geolocation error"

/-- State owned by the useGeolocation hook. -/
structure GeoState where
  location : Option GeoLocation
  loading : Bool
  error : Option String
deriving DecidableEq

/-- The getCurrentLocation operation (src/unnamed/part_001 lines 8-57):
sets loading and clears error, then on success stores the position; on
failure stores the per-kind message and clears the position; loading
is cleared by the finally block.  The operation traps its own failures
and resolves with no value either way. -/
def getCurrentLocation (_s : GeoState)
    (outcome : Except GeoErrorCode GeoLocation) : GeoState :=
  match outcome with
  | .ok pos => { location := some pos, loading := false, error := none }
  | .error e =>
    { location := none, loading := false, error := some (errorMessage e) }

end UseGeolocation

namespace GoogleMapsService

/-- The error message surfaced for each platform failure kind by
googleMaps.js getCurrentLocation (lines 25-42). -/
def geoErrorMessage : GeoErrorCode → String
  | .permissionDenied => "Location access denied. Please enable location services."
  | .positionUnavailable => "Location information is unavailable."
  | .timeoutExpired => "Location request timed out."
  | .unknownError => "An unknown error occurred while retrieving location."

end GoogleMapsService

/-- The observable effects of one invocation of App's
handleLocationSearch: the nearby fetch issued (latitude, longitude,
radius in km, active category), the new map center, and the new zoom
level, each none when not performed. -/
structure LocationSearchEffect where
  nearbyFetch : Option (ℚ × ℚ × ℚ × String)
  mapCenter : Option (ℚ × ℚ)
  mapZoom : Option ℕ
deriving DecidableEq

namespace AppComponent

/-- App.handleLocationSearch (App.js lines 227-242): awaits
getCurrentLocation() — whose promise resolves with no value and traps
its own failures, so the handler proceeds regardless of the
geolocation outcome and never consults the produced position — then
tests the closure-captured userLocation: when present it fetches
nearby businesses at that captured location with radius/1000 km and
the active category and re-centers the map there at zoom 14; when null
it does nothing further. -/
def handleLocationSearch (userLocation : Option GeoLocation)
    (geoOutcome : Except GeoErrorCode GeoLocation) (radius : ℚ)
    (activeCategory : String) : LocationSearchEffect :=
  match geoOutcome, userLocation with
  | _, some loc =>
    { nearbyFetch := some (loc.lat, loc.lng, radius / 1000, activeCategory),
      mapCenter := some (loc.lat, loc.lng),
      mapZoom := some 14 }
  | _, none =>
    { nearbyFetch := none, mapCenter := none, mapZoom := none }

end AppComponent

/-- JavaScript Math.atan2(y, x), case-split as specified for the real
plane (the signed-zero distinction, absent from the reals, is resolved
to the positive-zero behaviour atan2(0, 0) = 0). -/
noncomputable def atan2 (y x : ℝ) : ℝ :=
  if 0 < x then Real.arctan (y / x)
  else if x < 0 ∧ 0 ≤ y then Real.arctan (y / x) + Real.pi
  else if x < 0 ∧ y < 0 then Real.arctan (y / x) - Real.pi
  else if x = 0 ∧ 0 < y then Real.pi / 2
  else if x = 0 ∧ y < 0 then -(Real.pi / 2)
  else 0

/-- JavaScript Math.round: round half toward positive infinity. -/
noncomputable def jsRound (x : ℝ) : ℤ := ⌊x + 1 / 2⌋

/-- The Haversine intermediate a (googleMaps.js lines 60-62,
mockGoogleMaps.js lines 439-441, StoreList.js lines 116-118):
sin²(Δφ/2) + cos φ1 · cos φ2 · sin²(Δλ/2) with the latitudes and
longitude difference converted to radians. -/
noncomputable def hav_a (lat1 lng1 lat2 lng2 : ℝ) : ℝ :=
  Real.sin ((lat2 - lat1) * Real.pi / 180 / 2) *
      Real.sin ((lat2 - lat1) * Real.pi / 180 / 2) +
    Real.cos (lat1 * Real.pi / 180) * Real.cos (lat2 * Real.pi / 180) *
      Real.sin ((lng2 - lng1) * Real.pi / 180 / 2) *
      Real.sin ((lng2 - lng1) * Real.pi / 180 / 2)

/-- The Haversine intermediate c = 2 · atan2(√a, √(1−a)). -/
noncomputable def hav_c (lat1 lng1 lat2 lng2 : ℝ) : ℝ :=
  2 * atan2 (Real.sqrt (hav_a lat1 lng1 lat2 lng2))
    (Real.sqrt (1 - hav_a lat1 lng1 lat2 lng2))

namespace GoogleMapsService

/-- googleMaps.js calculateDistance (lines 51-66): Haversine distance
in meters with R = 6371000, rounded with Math.round. -/
noncomputable def calculateDistance (lat1 lng1 lat2 lng2 : ℝ) : ℤ :=
  jsRound (6371000 * hav_c lat1 lng1 lat2 lng2)

end GoogleMapsService

namespace MockGoogleMaps

/-- mockGoogleMaps.js calculateDistance (lines 433-446): Haversine
distance in meters with R = 6371000, unrounded. -/
noncomputable def calculateDistance (lat1 lng1 lat2 lng2 : ℝ) : ℝ :=
  6371000 * hav_c lat1 lng1 lat2 lng2

end MockGoogleMaps

namespace StoreList

/-- StoreList.js calculateDistance (lines 107-122): returns null when
the user location is absent or either store coordinate is falsy
(which for the parsed numeric model means 0), otherwise the Haversine
distance in meters from the user location to the store with
R = 6371e3.  String coordinates are abstracted to their parsed real
values. -/
noncomputable def calculateDistance (userLocation : Option (ℝ × ℝ))
    (storeLat storeLng : Option ℝ) : Option ℝ :=
  match userLocation, storeLat, storeLng with
  | some u, some la, some ln =>
    if la = 0 ∨ ln = 0 then none
    else some (6371000 * hav_c u.1 u.2 la ln)
  | _, _, _ => none

end StoreList

/-- A concrete business record used in counterexamples and witnesses. -/
def demoRecord : BizRecord :=
  { id := "b1", name := "Demo Grocer", latitude := 35, longitude := 14 }

/-- A second concrete business record. -/
def demoRecord2 : BizRecord :=
  { id := "b2", name := "Demo Pharmacy", latitude := 36, longitude := 15 }

/-- A concrete useBusinesses state whose result set is non-empty. -/
def demoBState : BusinessesState :=
  { businesses := [demoRecord], categories := [], loading := false,
    error := none, total := 1, hasMore := false }

theorem natDigitsRev_ne_nil (n : ℕ) (h : n ≠ 0) : natDigitsRev n ≠ [] := by
  rw [natDigitsRev]
  simp [h]

theorem natToChars_ne_nil (n : ℕ) : natToChars n ≠ [] := by
  unfold natToChars
  by_cases h : n = 0
  · simp [h]
  · simp only [h, if_false]
    intro hc
    exact natDigitsRev_ne_nil n h (by simpa using hc)

theorem numToChars_ne_nil (q : ℚ) : numToChars q ≠ [] := by
  unfold numToChars
  intro h
  rw [List.append_eq_nil, List.append_eq_nil] at h
  exact natToChars_ne_nil q.num.natAbs h.1.2

theorem stringMk_ne_empty (l : List Char) (h : l ≠ []) : String.mk l ≠ "" := by
  intro e
  apply h
  have hd : (String.mk l).data = ("").data := by rw [e]
  simpa using hd

theorem numToString_ne_empty (q : ℚ) : numToString q ≠ "" :=
  stringMk_ne_empty _ (numToChars_ne_nil q)

theorem appendParam_eq (qp : List (String × String)) (k : String) (v : JSPrim) :
    appendParam qp k v = qp ++ (encodeParam (k, v)).toList := by
  unfold appendParam encodeParam
  by_cases hk : k = "latitude" ∨ k = "longitude"
  · simp only [hk, if_true]
    cases parseFloatJS v <;> simp
  · simp only [hk, if_false]
    by_cases hv : v ≠ JSPrim.null ∧ v ≠ JSPrim.undef ∧ v ≠ JSPrim.str ""
    · simp [hv]
    · simp [hv]

theorem buildQueryParams_foldl (params : List (String × JSPrim)) :
    ∀ qp : List (String × String),
      params.foldl (fun qp kv => appendParam qp kv.1 kv.2) qp =
        qp ++ params.filterMap encodeParam := by
  induction params with
  | nil => intro qp; simp
  | cons kv rest ih =>
    intro qp
    simp only [List.foldl_cons, List.filterMap_cons]
    rw [ih, appendParam_eq]
    cases h : encodeParam (kv.1, kv.2) <;> simp [h]

theorem atan2_nonneg (y x : ℝ) (hy : 0 ≤ y) (hx : 0 ≤ x) : 0 ≤ atan2 y x := by
  unfold atan2
  rcases lt_or_eq_of_le hx with hxp | hxz
  · rw [if_pos hxp]
    have hdiv : (0 : ℝ) ≤ y / x := div_nonneg hy (le_of_lt hxp)
    calc (0 : ℝ) = Real.arctan 0 := Real.arctan_zero.symm
      _ ≤ Real.arctan (y / x) := Real.arctan_strictMono.monotone hdiv
  · have hxe : x = 0 := hxz.symm
    rw [if_neg (by simp [hxe]), if_neg (by simp [hxe]), if_neg (by simp [hxe])]
    rcases lt_or_eq_of_le hy with hyp | hyz
    · rw [if_pos ⟨hxe, hyp⟩]
      positivity
    · rw [if_neg (by simp [hyz.symm])]
      rw [if_neg (by simp [hyz.symm])]

theorem hav_c_nonneg (lat1 lng1 lat2 lng2 : ℝ) :
    0 ≤ hav_c lat1 lng1 lat2 lng2 := by
  unfold hav_c
  have h := atan2_nonneg (Real.sqrt (hav_a lat1 lng1 lat2 lng2))
    (Real.sqrt (1 - hav_a lat1 lng1 lat2 lng2))
    (Real.sqrt_nonneg _) (Real.sqrt_nonneg _)
  linarith

theorem hav_a_symm (lat1 lng1 lat2 lng2 : ℝ) :
    hav_a lat1 lng1 lat2 lng2 = hav_a lat2 lng2 lat1 lng1 := by
  unfold hav_a
  have h1 : Real.sin ((lat1 - lat2) * Real.pi / 180 / 2) =
      -Real.sin ((lat2 - lat1) * Real.pi / 180 / 2) := by
    rw [show (lat1 - lat2) * Real.pi / 180 / 2 =
        -((lat2 - lat1) * Real.pi / 180 / 2) by ring, Real.sin_neg]
  have h2 : Real.sin ((lng1 - lng2) * Real.pi / 180 / 2) =
      -Real.sin ((lng2 - lng1) * Real.pi / 180 / 2) := by
    rw [show (lng1 - lng2) * Real.pi / 180 / 2 =
        -((lng2 - lng1) * Real.pi / 180 / 2) by ring, Real.sin_neg]
  rw [h1, h2]
  ring

theorem hav_c_symm (lat1 lng1 lat2 lng2 : ℝ) :
    hav_c lat1 lng1 lat2 lng2 = hav_c lat2 lng2 lat1 lng1 := by
  unfold hav_c
  rw [hav_a_symm]

theorem hav_a_self (lat lng : ℝ) : hav_a lat lng lat lng = 0 := by
  unfold hav_a
  simp

theorem hav_c_self (lat lng : ℝ) : hav_c lat lng lat lng = 0 := by
  unfold hav_c
  rw [hav_a_self]
  simp [atan2, Real.arctan_zero]

/-- C3: for every pair of inputs with -90 ≤ lat ≤ 90 and
-180 ≤ lng ≤ 180, the Haversine distance function terminates without
raising an exception and returns a defined, non-negative numeric
result; in the embedding calculateDistance is a total function on the
reals (no error branch exists), and both the googleMaps.js and the
mockGoogleMaps.js variant return a non-negative number. -/
theorem calculateDistance_total_nonneg (lat1 lng1 lat2 lng2 : ℝ)
    (h1 : -90 ≤ lat1 ∧ lat1 ≤ 90) (h2 : -180 ≤ lng1 ∧ lng1 ≤ 180)
    (h3 : -90 ≤ lat2 ∧ lat2 ≤ 90) (h4 : -180 ≤ lng2 ∧ lng2 ≤ 180) :
    0 ≤ GoogleMapsService.calculateDistance lat1 lng1 lat2 lng2 ∧
    0 ≤ MockGoogleMaps.calculateDistance lat1 lng1 lat2 lng2 := by
  have hc : 0 ≤ hav_c lat1 lng1 lat2 lng2 := hav_c_nonneg lat1 lng1 lat2 lng2
  constructor
  · unfold GoogleMapsService.calculateDistance jsRound
    apply Int.le_floor.mpr
    push_cast
    nlinarith
  · unfold MockGoogleMaps.calculateDistance
    nlinarith

/-- Witness for C3 at Malta's center and a second point. -/
theorem calculateDistance_total_nonneg_witness :
    ((-90 : ℝ) ≤ 35 ∧ (35 : ℝ) ≤ 90) ∧ ((-180 : ℝ) ≤ 14 ∧ (14 : ℝ) ≤ 180) ∧
    0 ≤ GoogleMapsService.calculateDistance 35 14 36 15 ∧
    0 ≤ MockGoogleMaps.calculateDistance 35 14 36 15 :=
  ⟨⟨by norm_num, by norm_num⟩, ⟨by norm_num, by norm_num⟩,
    calculateDistance_total_nonneg 35 14 36 15 (by norm_num) (by norm_num)
      (by norm_num) (by norm_num)⟩

/-- C7: for every point with valid coordinates, calculateDistance of
the point with itself is exactly 0, in the googleMaps.js variant (an
integer after Math.round), the mockGoogleMaps.js variant (a real), and
the inline StoreList.js variant (which requires its truthiness guard
on the store coordinates to pass). -/
theorem calculateDistance_self_eq_zero (lat lng : ℝ)
    (h1 : -90 ≤ lat ∧ lat ≤ 90) (h2 : -180 ≤ lng ∧ lng ≤ 180) :
    GoogleMapsService.calculateDistance lat lng lat lng = 0 ∧
    MockGoogleMaps.calculateDistance lat lng lat lng = 0 ∧
    (lat ≠ 0 → lng ≠ 0 →
      StoreList.calculateDistance (some (lat, lng)) (some lat) (some lng) =
        some 0) := by
  have hc : hav_c lat lng lat lng = 0 := hav_c_self lat lng
  refine ⟨?_, ?_, ?_⟩
  · unfold GoogleMapsService.calculateDistance jsRound
    rw [hc]
    rw [Int.floor_eq_iff]
    norm_num
  · unfold MockGoogleMaps.calculateDistance
    rw [hc]
    ring
  · intro hla hln
    simp only [StoreList.calculateDistance]
    rw [if_neg (by tauto), hc]
    norm_num

/-- Witness for C7 at Malta's center (35.8989, 14.5146). -/
theorem calculateDistance_self_eq_zero_witness :
    ((-90 : ℝ) ≤ 35.8989 ∧ (35.8989 : ℝ) ≤ 90) ∧
    ((-180 : ℝ) ≤ 14.5146 ∧ (14.5146 : ℝ) ≤ 180) ∧
    GoogleMapsService.calculateDistance 35.8989 14.5146 35.8989 14.5146 = 0 ∧
    MockGoogleMaps.calculateDistance 35.8989 14.5146 35.8989 14.5146 = 0 ∧
    ((35.8989 : ℝ) ≠ 0 → (14.5146 : ℝ) ≠ 0 →
      StoreList.calculateDistance (some (35.8989, 14.5146)) (some 35.8989)
        (some 14.5146) = some 0) :=
  ⟨⟨by norm_num, by norm_num⟩, ⟨by norm_num, by norm_num⟩,
    calculateDistance_self_eq_zero 35.8989 14.5146 (by norm_num) (by norm_num)⟩

/-- C8: for every two points with valid coordinates, calculateDistance
is symmetric in its two points, in both the googleMaps.js and the
mockGoogleMaps.js variant. -/
theorem calculateDistance_symm (lat1 lng1 lat2 lng2 : ℝ)
    (h1 : -90 ≤ lat1 ∧ lat1 ≤ 90) (h2 : -180 ≤ lng1 ∧ lng1 ≤ 180)
    (h3 : -90 ≤ lat2 ∧ lat2 ≤ 90) (h4 : -180 ≤ lng2 ∧ lng2 ≤ 180) :
    GoogleMapsService.calculateDistance lat1 lng1 lat2 lng2 =
      GoogleMapsService.calculateDistance lat2 lng2 lat1 lng1 ∧
    MockGoogleMaps.calculateDistance lat1 lng1 lat2 lng2 =
      MockGoogleMaps.calculateDistance lat2 lng2 lat1 lng1 := by
  constructor
  · unfold GoogleMapsService.calculateDistance
    rw [hav_c_symm]
  · unfold MockGoogleMaps.calculateDistance
    rw [hav_c_symm]

/-- Witness for C8 at two points on Malta. -/
theorem calculateDistance_symm_witness :
    ((-90 : ℝ) ≤ 35.8989 ∧ (35.8989 : ℝ) ≤ 90) ∧
    ((-180 : ℝ) ≤ 14.5146 ∧ (14.5146 : ℝ) ≤ 180) ∧
    GoogleMapsService.calculateDistance 35.8989 14.5146 35.9 14.51 =
      GoogleMapsService.calculateDistance 35.9 14.51 35.8989 14.5146 ∧
    MockGoogleMaps.calculateDistance 35.8989 14.5146 35.9 14.51 =
      MockGoogleMaps.calculateDistance 35.9 14.51 35.8989 14.5146 :=
  ⟨⟨by norm_num, by norm_num⟩, ⟨by norm_num, by norm_num⟩,
    calculateDistance_symm 35.8989 14.5146 35.9 14.51 (by norm_num) (by norm_num)
      (by norm_num) (by norm_num)⟩

/-- C9: the geolocation operation distinguishes the four platform
failure kinds, surfacing a distinct human-readable error string for
each (pairwise distinct, none the generic string "failed"), both in
useGeolocation and in googleMaps.js getCurrentLocation. -/
theorem geolocation_messages_distinct :
    (UseGeolocation.errorMessage .permissionDenied ≠
       UseGeolocation.errorMessage .positionUnavailable ∧
     UseGeolocation.errorMessage .permissionDenied ≠
       UseGeolocation.errorMessage .timeoutExpired ∧
     UseGeolocation.errorMessage .permissionDenied ≠
       UseGeolocation.errorMessage .unknownError ∧
     UseGeolocation.errorMessage .positionUnavailable ≠
       UseGeolocation.errorMessage .timeoutExpired ∧
     UseGeolocation.errorMessage .positionUnavailable ≠
       UseGeolocation.errorMessage .unknownError ∧
     UseGeolocation.errorMessage .timeoutExpired ≠
       UseGeolocation.errorMessage .unknownError) ∧
    (GoogleMapsService.geoErrorMessage .permissionDenied ≠
       GoogleMapsService.geoErrorMessage .positionUnavailable ∧
     GoogleMapsService.geoErrorMessage .permissionDenied ≠
       GoogleMapsService.geoErrorMessage .timeoutExpired ∧
     GoogleMapsService.geoErrorMessage .permissionDenied ≠
       GoogleMapsService.geoErrorMessage .unknownError ∧
     GoogleMapsService.geoErrorMessage .positionUnavailable ≠
       GoogleMapsService.geoErrorMessage .timeoutExpired ∧
     GoogleMapsService.geoErrorMessage .positionUnavailable ≠
       GoogleMapsService.geoErrorMessage .unknownError ∧
     GoogleMapsService.geoErrorMessage .timeoutExpired ≠
       GoogleMapsService.geoErrorMessage .unknownError) ∧
    (UseGeolocation.errorMessage .permissionDenied ≠ "failed" ∧
     UseGeolocation.errorMessage .positionUnavailable ≠ "failed" ∧
     UseGeolocation.errorMessage .timeoutExpired ≠ "failed" ∧
     UseGeolocation.errorMessage .unknownError ≠ "failed" ∧
     GoogleMapsService.geoErrorMessage .permissionDenied ≠ "failed" ∧
     GoogleMapsService.geoErrorMessage .positionUnavailable ≠ "failed" ∧
     GoogleMapsService.geoErrorMessage .timeoutExpired ≠ "failed" ∧
     GoogleMapsService.geoErrorMessage .unknownError ≠ "failed") := by
  refine ⟨⟨?_, ?_, ?_, ?_, ?_, ?_⟩, ⟨?_, ?_, ?_, ?_, ?_, ?_⟩,
    ?_, ?_, ?_, ?_, ?_, ?_, ?_, ?_⟩ <;> decide

/-- C10: App.handleLocationSearch consults only the userLocation value
captured when the handler was created, never the position produced by
the awaited getCurrentLocation call: its effects are identical for any
two geolocation outcomes; when userLocation is null at invocation the
geolocation request still completes (the hook stores the new position)
yet no nearby fetch is issued and the map is not re-centered; and when
userLocation holds a location the fetch and re-center use that
captured location with radius/1000 km and the active category. -/
theorem handleLocationSearch_uses_captured_location :
    (∀ (u : Option GeoLocation) (r1 r2 : Except GeoErrorCode GeoLocation)
        (radius : ℚ) (cat : String),
      AppComponent.handleLocationSearch u r1 radius cat =
        AppComponent.handleLocationSearch u r2 radius cat) ∧
    (∀ (s : UseGeolocation.GeoState) (pos : GeoLocation),
      (UseGeolocation.getCurrentLocation s (.ok pos)).location = some pos ∧
      (UseGeolocation.getCurrentLocation s (.ok pos)).error = none) ∧
    (∀ (pos : GeoLocation) (radius : ℚ) (cat : String),
      AppComponent.handleLocationSearch none (.ok pos) radius cat =
        { nearbyFetch := none, mapCenter := none, mapZoom := none }) ∧
    (∀ (loc pos : GeoLocation) (radius : ℚ) (cat : String),
      AppComponent.handleLocationSearch (some loc) (.ok pos) radius cat =
        { nearbyFetch := some (loc.lat, loc.lng, radius / 1000, cat),
          mapCenter := some (loc.lat, loc.lng), mapZoom := some 14 }) := by
  refine ⟨?_, ?_, ?_, ?_⟩
  · intro u r1 r2 radius cat
    cases u <;> cases r1 <;> cases r2 <;> rfl
  · intro s pos
    exact ⟨rfl, rfl⟩
  · intro pos radius cat
    rfl
  · intro loc pos radius cat
    rfl

/-- C6: every fetch-triggering hook operation (fetchStores,
searchStores, getNearbyStores in useStores; fetchBusinesses, to which
searchBusinesses and getNearbyBusinesses delegate) sets loading=true
and error=null before issuing its request, and loading=false after
completion on both the success and the failure path. -/
theorem fetch_loading_protocol :
    ∀ (s : StoresState) (r : Except (Option String) StoresPage)
      (rn : Except (Option String) (List BizRecord))
      (bs : BusinessesState) (params : List (String × JSPrim))
      (rb : Except String BusinessesResponse),
    ((UseStores.beginFetch s).loading = true ∧
     (UseStores.beginFetch s).error = none) ∧
    (UseStores.fetchStores s r).loading = false ∧
    (UseStores.searchStores s r).loading = false ∧
    (UseStores.getNearbyStores s rn).loading = false ∧
    ((UseBusinesses.beginFetch bs).loading = true ∧
     (UseBusinesses.beginFetch bs).error = none) ∧
    (UseBusinesses.fetchBusinesses bs params rb).loading = false := by
  intro s r rn bs params rb
  refine ⟨⟨rfl, rfl⟩, ?_, ?_, ?_, ⟨rfl, rfl⟩, ?_⟩
  · cases r <;> rfl
  · cases r <;> rfl
  · cases rn <;> rfl
  · cases rb <;> simp [UseBusinesses.fetchBusinesses,
      UseBusinesses.fetchBusinessesComplete, UseBusinesses.beginFetch]

/-- Counterexample to C1: after a failed fetchBusinesses request
started from a state holding one business, the hook's error is set to
the failure's message but the businesses state is NOT the empty list —
it still holds the previous record, refuting the claim that the result
set is empty after every failed fetch regardless of prior state. -/
theorem failed_fetch_keeps_businesses :
    (UseBusinesses.fetchBusinesses demoBState []
        (.error "Failed to fetch businesses: 500")).error =
      some "Failed to fetch businesses: 500" ∧
    (UseBusinesses.fetchBusinesses demoBState []
        (.error "Failed to fetch businesses: 500")).businesses = [demoRecord] ∧
    [demoRecord] ≠ ([] : List BizRecord) := by
  refine ⟨rfl, rfl, ?_⟩
  decide

/-- C1 as amended: after a failed request the error state is always
non-null (set from the failure's message); the three useStores
operations additionally reset the stores list to empty regardless of
prior state, while useBusinesses.fetchBusinesses leaves the businesses
state unchanged (the previous result set is retained). -/
theorem failed_fetch_error_and_result_set :
    ∀ (s : StoresState) (m : Option String) (bs : BusinessesState)
      (params : List (String × JSPrim)) (msg : String),
    ((UseStores.fetchStores s (.error m)).error =
        some (m.getD "Failed to fetch stores") ∧
     (UseStores.fetchStores s (.error m)).stores = []) ∧
    ((UseStores.searchStores s (.error m)).error =
        some (m.getD "Failed to search stores") ∧
     (UseStores.searchStores s (.error m)).stores = []) ∧
    ((UseStores.getNearbyStores s (.error m)).error =
        some (m.getD "Failed to fetch nearby stores") ∧
     (UseStores.getNearbyStores s (.error m)).stores = []) ∧
    ((UseBusinesses.fetchBusinesses bs params (.error msg)).error = some msg ∧
     (UseBusinesses.fetchBusinesses bs params (.error msg)).businesses =
       bs.businesses) := by
  intro s m bs params msg
  exact ⟨⟨rfl, rfl⟩, ⟨rfl, rfl⟩, ⟨rfl, rfl⟩, ⟨rfl, rfl⟩⟩

/-- C2: on fetchBusinesses success, the businesses state is replaced by
exactly the returned page when the request's offset is absent or 0,
and is the previous state concatenated with the returned page when the
offset is a number greater than 0; in the append case no duplicate ids
are introduced: when the previous ids and the page ids are each
duplicate-free and mutually disjoint, the resulting ids are
duplicate-free. -/
theorem fetchBusinesses_replace_append :
    ∀ (s : BusinessesState) (params : List (String × JSPrim))
      (data : BusinessesResponse),
    ((getField params "offset" = none ∨
        getField params "offset" = some (JSPrim.num 0)) →
      (UseBusinesses.fetchBusinesses s params (.ok data)).businesses =
        data.businesses.getD []) ∧
    (∀ q : ℚ, getField params "offset" = some (JSPrim.num q) → 0 < q →
      (UseBusinesses.fetchBusinesses s params (.ok data)).businesses =
        s.businesses ++ data.businesses.getD []) ∧
    (∀ q : ℚ, getField params "offset" = some (JSPrim.num q) → 0 < q →
      (s.businesses.map BizRecord.id).Nodup →
      ((data.businesses.getD []).map BizRecord.id).Nodup →
      (∀ i ∈ s.businesses.map BizRecord.id,
        i ∉ (data.businesses.getD []).map BizRecord.id) →
      (((UseBusinesses.fetchBusinesses s params (.ok data)).businesses).map
          BizRecord.id).Nodup) := by
  intro s params data
  have happend : ∀ q : ℚ, getField params "offset" = some (JSPrim.num q) →
      0 < q →
      (UseBusinesses.fetchBusinesses s params (.ok data)).businesses =
        s.businesses ++ data.businesses.getD [] := by
    intro q hq hpos
    have hne : ¬(q = 0) := ne_of_gt hpos
    simp [UseBusinesses.fetchBusinesses, UseBusinesses.fetchBusinessesComplete,
      UseBusinesses.beginFetch, hq, jsFalsyOpt, jsFalsy, hne]
  refine ⟨?_, happend, ?_⟩
  · intro h
    rcases h with h | h <;>
      simp [UseBusinesses.fetchBusinesses, UseBusinesses.fetchBusinessesComplete,
        UseBusinesses.beginFetch, h, jsFalsyOpt, jsFalsy]
  · intro q hq hpos h1 h2 hdisj
    rw [happend q hq hpos, List.map_append]
    exact h1.append h2 (by simpa [List.Disjoint] using hdisj)

/-- Witness for C2: appending page [demoRecord2] with offset 50 to a
state holding [demoRecord] concatenates without duplicate ids. -/
theorem fetchBusinesses_replace_append_witness :
    (0 : ℚ) < 50 ∧
    (UseBusinesses.fetchBusinesses demoBState [("offset", JSPrim.num 50)]
        (.ok { businesses := some [demoRecord2], total := some 2,
               has_more := some true })).businesses =
      demoBState.businesses ++ (some [demoRecord2]).getD [] ∧
    (((UseBusinesses.fetchBusinesses demoBState [("offset", JSPrim.num 50)]
        (.ok { businesses := some [demoRecord2], total := some 2,
               has_more := some true })).businesses).map BizRecord.id).Nodup ∧
    (UseBusinesses.fetchBusinesses demoBState []
        (.ok { businesses := some [demoRecord2], total := some 1,
               has_more := some false })).businesses =
      (some [demoRecord2]).getD [] :=
  ⟨by norm_num,
   (fetchBusinesses_replace_append demoBState [("offset", JSPrim.num 50)]
     { businesses := some [demoRecord2], total := some 2,
       has_more := some true }).2.1 50 rfl (by norm_num),
   (fetchBusinesses_replace_append demoBState [("offset", JSPrim.num 50)]
     { businesses := some [demoRecord2], total := some 2,
       has_more := some true }).2.2 50 rfl (by norm_num) (by decide) (by decide)
     (by decide),
   (fetchBusinesses_replace_append demoBState []
     { businesses := some [demoRecord2], total := some 1,
       has_more := some false }).1 (Or.inl rfl)⟩

/-- Counterexample to C4: a render with a non-empty result set, no
loading and no error shows the normal content list, which is none of
the three degraded states — so not every render falls into exactly one
of loading/error/no-results. -/
theorem list_views_content_render :
    BusinessList.render false none [demoRecord] = RenderView.contentView ∧
    StoreList.render false none [demoRecord] = RenderView.contentView ∧
    RenderView.contentView ≠ RenderView.loadingView ∧
    RenderView.contentView ≠ RenderView.errorView ∧
    RenderView.contentView ≠ RenderView.emptyView := by
  refine ⟨rfl, rfl, ?_, ?_, ?_⟩ <;> decide

/-- C4 as amended: for every render whose result set is empty, the
render is exactly one of the three degraded states, which are pairwise
distinct: in BusinessList, loading wins when loading, else the error
state when error is set, else the no-results state; in StoreList the
error state wins, else loading when loading, else the no-results
state; neither component ever renders content from an empty result
set.  A render with a non-empty result set may fall outside the three
(the content list). -/
theorem list_views_empty_state_partition :
    ∀ (loading : Bool) (error : Option String) (items : List BizRecord),
    items = [] →
    ((BusinessList.render loading error items = RenderView.loadingView ↔
        loading = true) ∧
     (BusinessList.render loading error items = RenderView.errorView ↔
        loading = false ∧ error.isSome = true) ∧
     (BusinessList.render loading error items = RenderView.emptyView ↔
        loading = false ∧ error = none)) ∧
    ((StoreList.render loading error items = RenderView.errorView ↔
        error.isSome = true) ∧
     (StoreList.render loading error items = RenderView.loadingView ↔
        error = none ∧ loading = true) ∧
     (StoreList.render loading error items = RenderView.emptyView ↔
        error = none ∧ loading = false)) ∧
    BusinessList.render loading error items ≠ RenderView.contentView ∧
    StoreList.render loading error items ≠ RenderView.contentView ∧
    (RenderView.loadingView ≠ RenderView.errorView ∧
     RenderView.loadingView ≠ RenderView.emptyView ∧
     RenderView.errorView ≠ RenderView.emptyView) := by
  intro loading error items hempty
  subst hempty
  cases loading <;> cases error <;>
    simp [BusinessList.render, StoreList.render]

/-- Witness for C4 as amended: the empty result set with no loading
and no error renders the no-results state in BusinessList. -/
theorem list_views_empty_state_partition_witness :
    ([] : List BizRecord) = [] ∧
    (BusinessList.render false none ([] : List BizRecord) =
        RenderView.emptyView ↔ false = false ∧ (none : Option String) = none) :=
  ⟨rfl, ((list_views_empty_state_partition false none [] rfl).1).2.2⟩

/-- C5: every filter field whose value is null, undefined or the empty
string is omitted from the outgoing request's query parameters, and
latitude/longitude are sent only when they parse to a valid number; no
parameter is ever sent with an empty-string (or stringified
null/undefined) value; the full queryParams construction equals the
per-entry encoding; and the searchParams object built by SearchFilters
never hands a null, undefined or empty-string value to the search. -/
theorem search_params_omit_empty :
    (∀ (k : String) (v : JSPrim), ¬(k = "latitude" ∨ k = "longitude") →
      (v = JSPrim.null ∨ v = JSPrim.undef ∨ v = JSPrim.str "") →
      encodeParam (k, v) = none) ∧
    (∀ (k : String) (v : JSPrim), (k = "latitude" ∨ k = "longitude") →
      parseFloatJS v = none → encodeParam (k, v) = none) ∧
    (∀ (kv : String × JSPrim) (p : String × String),
      encodeParam kv = some p → p.2 ≠ "") ∧
    (∀ params : List (String × JSPrim),
      buildQueryParams params = params.filterMap encodeParam) ∧
    (∀ (f : SFilters) (p : String × JSPrim), p ∈ buildSearchParams f →
      p.2 ≠ JSPrim.undef ∧ p.2 ≠ JSPrim.null ∧ p.2 ≠ JSPrim.str "") := by
  refine ⟨?_, ?_, ?_, ?_, ?_⟩
  · intro k v hk hv
    rcases hv with rfl | rfl | rfl <;> simp [encodeParam, hk]
  · intro k v hk hp
    simp [encodeParam, hk, hp]
  · intro kv p h
    obtain ⟨k, v⟩ := kv
    unfold encodeParam at h
    by_cases hk : k = "latitude" ∨ k = "longitude"
    · rw [if_pos hk] at h
      obtain ⟨n, _, hpn⟩ := Option.map_eq_some'.mp h
      rw [← hpn]
      exact numToString_ne_empty n
    · rw [if_neg hk] at h
      by_cases hv : v ≠ JSPrim.null ∧ v ≠ JSPrim.undef ∧ v ≠ JSPrim.str ""
      · rw [if_pos hv] at h
        cases Option.some.inj h
        cases v with
        | str s =>
          simp only [jsToString]
          intro he
          exact hv.2.2 (by rw [he])
        | num q => exact numToString_ne_empty q
        | null => simp [jsToString]
        | undef => simp [jsToString]
        | nan => simp [jsToString]
        | bool b => cases b <;> simp [jsToString]
      · rw [if_neg hv] at h
        exact absurd h (by simp)
  · intro params
    exact (buildQueryParams_foldl params []).trans (by simp)
  · intro f p hp
    unfold buildSearchParams at hp
    rw [List.mem_filter] at hp
    obtain ⟨hmem, hund⟩ := hp
    have hundef : p.2 ≠ JSPrim.undef := by simpa using hund
    have hval : p.2 = JSPrim.undef ∨
        (∃ s, p.2 = JSPrim.str s ∧ s ≠ "") ∨
        (∃ q, p.2 = JSPrim.num q) ∨ p.2 = JSPrim.nan := by
      simp only [List.mem_cons, List.not_mem_nil, or_false] at hmem
      rcases hmem with rfl | rfl | rfl | rfl | rfl
      · by_cases h : f.query = "" <;> simp [h]
      · by_cases h : f.category = "" <;> simp [h]
      · by_cases h : f.min_rating = ""
        · simp [h]
        · simp only [h, if_false]
          cases hp2 : parseFloatStr f.min_rating <;> simp
      · by_cases h : f.max_price_level = ""
        · simp [h]
        · simp only [h, if_false]
          cases hp2 : parseIntStr f.max_price_level <;> simp
      · cases hp2 : parseIntStr f.radius <;> simp
    rcases hval with h | ⟨s, hs, hsne⟩ | ⟨q, hq⟩ | h
    · exact absurd h hundef
    · exact ⟨hundef, by simp [hs], by simp [hs, hsne]⟩
    · exact ⟨hundef, by simp [hq], by simp [hq]⟩
    · exact ⟨hundef, by simp [h], by simp [h]⟩

/-- Witness for C5: a null category is omitted, an unparsable latitude
is omitted, the loop equals the per-entry encoding on a concrete
params object, and a concrete SearchFilters state hands only defined,
non-empty values to the search. -/
theorem search_params_omit_empty_witness :
    encodeParam ("category", JSPrim.null) = none ∧
    encodeParam ("latitude", JSPrim.str "abc") = none ∧
    buildQueryParams [("query", JSPrim.str "lidl"), ("min_rating", JSPrim.undef)] =
      List.filterMap encodeParam
        [("query", JSPrim.str "lidl"), ("min_rating", JSPrim.undef)] ∧
    (("query", JSPrim.str "lidl").2 ≠ JSPrim.undef ∧
     ("query", JSPrim.str "lidl").2 ≠ JSPrim.null ∧
     ("query", JSPrim.str "lidl").2 ≠ JSPrim.str "") :=
  ⟨search_params_omit_empty.1 "category" JSPrim.null (by decide) (Or.inl rfl),
   search_params_omit_empty.2.1 "latitude" (JSPrim.str "abc") (Or.inl rfl)
     (by decide),
   search_params_omit_empty.2.2.2.1
     [("query", JSPrim.str "lidl"), ("min_rating", JSPrim.undef)],
   search_params_omit_empty.2.2.2.2
     { query := "lidl", category := "grocery", min_rating := "",
       max_price_level := "", radius := "5000", exclude_closed := true }
     ("query", JSPrim.str "lidl") (by decide)⟩
